import Mathlib

/-!
Verification of the contact-management backend (`goit-pythonweb-hw-12`).

The Python source is shallowly embedded: ORM rows become structures, the
database becomes a `List` of rows, the Redis session cache becomes a list of
TTL-stamped entries, JWTs become an inductive `Token` whose decode checks the
signing key and expiry, and every route handler becomes a pure function
returning `Except` for the HTTP-error / fault paths.  Machine time is a `Nat`
of seconds.  Definitions follow `src/` function by function.
-/

/-- Role enum from `src/database/models.py` (`UserRole`). -/
inductive UserRole where
  | USER
  | ADMIN
deriving DecidableEq, Repr

/-- Row of the `users` table (`src/database/models.py`, class `User`). -/
structure User where
  id : Nat
  username : String
  email : String
  hashed_password : String
  confirmed : Bool
  avatar : Option String
  role : UserRole
deriving DecidableEq, Repr

/-- Python `datetime.date`: proleptic Gregorian calendar date. -/
structure PyDate where
  year : Nat
  month : Nat
  day : Nat
deriving DecidableEq, Repr

/-- Row of the `contacts` table (`src/database/models.py`, class `Contact`). -/
structure Contact where
  id : Nat
  first_name : String
  last_name : Option String
  email : String
  phone_number : String
  birthday : PyDate
  additional_data : Option String
  user_id : Nat
deriving DecidableEq, Repr

/-- The JWT-relevant part of `src/conf/config.py` (`Settings`). -/
structure Config where
  JWT_SECRET : String
  JWT_EXPIRATION_SECONDS : Nat
deriving DecidableEq, Repr

/-- A JSON claim value for `sub`: the key may be absent from the payload
dict, present with value `null`, or present with a string value.  Python's
`payload["sub"]` distinguishes all three (KeyError / None / str). -/
inductive SubClaim where
  | absent
  | null
  | str (s : String)
deriving DecidableEq, Repr

/-- Decoded JWT payload: the claim sets built by `create_access_token`
(`sub`, `exp`) and `create_email_token` (`sub`, `iat`, `exp`). -/
structure Payload where
  sub : SubClaim
  exp : Option Nat
  iat : Option Nat
deriving DecidableEq, Repr

/-- A bearer token: either a well-formed JWT signed with some key, or a
malformed string that no decode accepts. -/
inductive Token where
  | signed (payload : Payload) (key : String)
  | malformed
deriving DecidableEq, Repr

/-- The single failure kind of `jose.jwt.decode` as the code consumes it:
every `JWTError` subclass (bad signature, malformed structure, expired) is
caught by one `except JWTError` clause. -/
inductive JWTError where
  | invalid
deriving DecidableEq, Repr

/-- `jose.jwt.decode(token, key, algorithms=[...])` at time `now`: rejects a
malformed token, rejects a signature made with a different key, and rejects
an expired token (jose raises `ExpiredSignatureError` when `exp < now`). -/
def jwt_decode (t : Token) (key : String) (now : Nat) : Except JWTError Payload :=
  match t with
  | .malformed => .error .invalid
  | .signed p k =>
    if k ≠ key then .error .invalid
    else
      match p.exp with
      | some e => if e < now then .error .invalid else .ok p
      | none => .ok p

/-- `create_access_token` (`src/services/auth.py`): copies the payload data
and sets `exp = now + expires_delta` when `expires_delta` is truthy (Python
`if expires_delta:` — `None` and `0` are both falsy), else
`exp = now + config.JWT_EXPIRATION_SECONDS`; signs with `config.JWT_SECRET`. -/
def create_access_token (cfg : Config) (now : Nat) (sub : SubClaim)
    (expires_delta : Option Nat) : Token :=
  let ttl :=
    match expires_delta with
    | some d => if d = 0 then cfg.JWT_EXPIRATION_SECONDS else d
    | none => cfg.JWT_EXPIRATION_SECONDS
  .signed { sub := sub, exp := some (now + ttl), iat := none } cfg.JWT_SECRET

/-- `create_email_token` (`src/services/auth.py`): signs
`{sub, iat: now, exp: now + 20 minutes}`. -/
def create_email_token (cfg : Config) (now : Nat) (sub : SubClaim) : Token :=
  .signed { sub := sub, exp := some (now + 1200), iat := some now } cfg.JWT_SECRET

namespace UsersRepo

/-- `UserRepository.get_user_by_username` (`src/repository/users.py`):
`select(User).filter_by(username=...)`, `scalar_one_or_none`. -/
def get_user_by_username (db : List User) (username : String) : Option User :=
  db.find? (fun u => u.username = username)

/-- `UserRepository.get_user_by_email` (`src/repository/users.py`):
`select(User).filter_by(email=...)`, `scalar_one_or_none`. -/
def get_user_by_email (db : List User) (email : String) : Option User :=
  db.find? (fun u => u.email = email)

/-- The same lookup when the route passes Python `None` as the email (SQL
`email = NULL` matches no row, emails being non-null). -/
def get_user_by_email_py (db : List User) (email : Option String) : Option User :=
  match email with
  | none => none
  | some e => get_user_by_email db e

end UsersRepo

/-- A Redis entry written by the guard: key (the token's `sub`), pickled
user snapshot, and absolute expiry time set by `r.expire(key, 3600)`. -/
structure CacheEntry where
  key : String
  value : User
  expiresAt : Nat
deriving DecidableEq, Repr

/-- The Redis session cache: the live key space. -/
def Cache := List CacheEntry
deriving DecidableEq

/-- `r.get(key)` at time `now`: a key answers while its TTL has not elapsed. -/
def cacheGet (cache : Cache) (k : String) (now : Nat) : Option User :=
  ((cache : List CacheEntry).find? (fun e => e.key = k && now < e.expiresAt)).map
    (fun e => e.value)

/-- `r.set(key, pickle.dumps(user))` followed by `r.expire(key, 3600)` at
time `now`: overwrites the key with a 3600-second TTL. -/
def cacheSet (cache : Cache) (k : String) (u : User) (now : Nat) : Cache :=
  ⟨k, u, now + 3600⟩ :: (cache : List CacheEntry).filter (fun e => e.key ≠ k)

/-- Outcomes of `get_current_user` (`src/services/auth.py`): the HTTP 401
`credentials_exception` ("Could not validate credentials"), or the uncaught
Python `KeyError` that `payload["sub"]` raises when the claim is absent
(`except JWTError` does not catch `KeyError`). -/
inductive GuardErr where
  | credentials
  | keyError
deriving DecidableEq, Repr

/-- `get_current_user` (`src/services/auth.py`): decode the JWT (`JWTError`
→ credentials_exception); read `payload["sub"]` (absent key → uncaught
`KeyError`; explicit `null` → the `if username is None` branch raises
credentials_exception); consult Redis by the sub value; on miss, look the
user up by USERNAME and repopulate the cache with TTL 3600. Returns the
resolution outcome and the cache state after the call. -/
def get_current_user (cfg : Config) (now : Nat) (db : List User)
    (cache : Cache) (token : Token) : Except GuardErr User × Cache :=
  match jwt_decode token cfg.JWT_SECRET now with
  | .error _ => (.error .credentials, cache)
  | .ok payload =>
    match payload.sub with
    | .absent => (.error .keyError, cache)
    | .null => (.error .credentials, cache)
    | .str username =>
      match cacheGet cache username now with
      | some u => (.ok u, cache)
      | none =>
        match UsersRepo.get_user_by_username db username with
        | none => (.error .credentials, cache)
        | some user => (.ok user, cacheSet cache username user now)

/-- Faults surfaced by the auth route handlers (`src/api/auth.py`): an
`HTTPException` with status code and detail, or an uncaught Python fault
(`KeyError` from `payload["sub"]`, `AttributeError` from dereferencing a
`None` user). -/
inductive ApiFault where
  | http (code : Nat) (detail : String)
  | keyError
  | attributeError
deriving DecidableEq, Repr

/-- `get_email_from_token` (`src/services/auth.py`): decode the action
token (`JWTError` → HTTP 422 "Invalid email verification token") and return
`payload["sub"]` — an absent key is an uncaught `KeyError`, a `null` value
comes back as Python `None`. -/
def get_email_from_token (cfg : Config) (now : Nat) (token : Token) :
    Except ApiFault (Option String) :=
  match jwt_decode token cfg.JWT_SECRET now with
  | .error _ => .error (.http 422 "Invalid email verification token")
  | .ok p =>
    match p.sub with
    | .absent => .error .keyError
    | .null => .ok none
    | .str s => .ok (some s)

namespace UsersRepo

/-- `UserRepository.confirmed_email` (`src/repository/users.py`): fetch by
email, set `confirmed = True`, commit.  A missing user would be an
`AttributeError` on `None`. -/
def confirmed_email (db : List User) (email : Option String) :
    Except ApiFault (List User) :=
  match get_user_by_email_py db email with
  | none => .error .attributeError
  | some u =>
    .ok (db.map (fun x => if x.email = u.email then { x with confirmed := true } else x))

/-- `UserRepository.set_new_password` (`src/repository/users.py`): fetch by
email, overwrite `hashed_password`, commit, refresh, and return the updated
User row. -/
def set_new_password (db : List User) (email : Option String)
    (new_password_hash : String) : Except ApiFault (User × List User) :=
  match get_user_by_email_py db email with
  | none => .error .attributeError
  | some u =>
    .ok ({ u with hashed_password := new_password_hash },
      db.map (fun x =>
        if x.email = u.email then { x with hashed_password := new_password_hash } else x))

end UsersRepo

namespace AuthApi

/-- Outcome of `POST /auth/login` (`src/api/auth.py`, `login_user`): a
bearer token or an HTTP 401 with its detail string. -/
inductive LoginResult where
  | ok (access_token : Token)
  | unauthorized (detail : String)
deriving DecidableEq, Repr

/-- `login_user` (`src/api/auth.py`): look up by username; `if not user or
not verify_password(...)` → 401 "Incorrect login or password"; `if not
user.confirmed` → 401 "Email address not confirmed"; else issue
`create_access_token(data={"sub": user.email})`.  Password hashing is
bcrypt, embedded as the oracle `verify`. -/
def login_user (cfg : Config) (now : Nat) (db : List User)
    (verify : String → String → Bool) (username password : String) : LoginResult :=
  match UsersRepo.get_user_by_username db username with
  | none => .unauthorized "Incorrect login or password"
  | some user =>
    if ¬ verify password user.hashed_password then
      .unauthorized "Incorrect login or password"
    else if ¬ user.confirmed then
      .unauthorized "Email address not confirmed"
    else
      .ok (create_access_token cfg now (.str user.email) none)

/-- `confirmed_email` route (`src/api/auth.py`, `GET /auth/confirmed_email/
\x7btoken\x7d`): decode the token to an email; no matching user → HTTP 400
"Verification error"; already confirmed → informational message with no
mutation; otherwise flip the flag.  Returns the message and the user table
after the request. -/
def confirmed_email (cfg : Config) (now : Nat) (db : List User) (token : Token) :
    Except ApiFault (String × List User) :=
  match get_email_from_token cfg now token with
  | .error f => .error f
  | .ok email =>
    match UsersRepo.get_user_by_email_py db email with
    | none => .error (.http 400 "Verification error")
    | some user =>
      if user.confirmed then .ok ("Your email has already been confirmed.", db)
      else
        match UsersRepo.confirmed_email db email with
        | .error f => .error f
        | .ok db2 => .ok ("Email confirmed", db2)

/-- Python truthiness of reading `user.confirmed` on an optional user:
`None.confirmed` raises `AttributeError`. -/
def pyConfirmed : Option User → Except ApiFault Bool
  | none => .error .attributeError
  | some u => .ok u.confirmed

/-- `request_email` route (`src/api/auth.py`, `POST /auth/request_email`):
reads `user.confirmed` FIRST (faulting on an absent user), then the
`if user:` existence check decides whether a verification email is
scheduled.  The Bool of the result records whether
`send_verification_email` was added to the background tasks. -/
def request_email (db : List User) (email : String) :
    Except ApiFault (String × Bool) :=
  let user := UsersRepo.get_user_by_email db email
  match pyConfirmed user with
  | .error f => .error f
  | .ok c =>
    if c then .ok ("Your email has already been confirmed.", false)
    else .ok ("Check your email for confirmation.", user.isSome)

/-- `password_reset` route (`src/api/auth.py`, `POST /auth/password_reset/
\x7btoken\x7d`): decode the token to an email; no matching user → HTTP 400
"Verification error"; else hash the new password (bcrypt, embedded as the
oracle `hashFn`) and return `set_new_password`'s result — the full updated
User row — together with the user table after the request. -/
def password_reset (cfg : Config) (now : Nat) (hashFn : String → String)
    (db : List User) (token : Token) (new_password : String) :
    Except ApiFault (User × List User) :=
  match get_email_from_token cfg now token with
  | .error f => .error f
  | .ok email =>
    match UsersRepo.get_user_by_email_py db email with
    | none => .error (.http 400 "Verification error")
    | some _ =>
      let new_password_hash := hashFn new_password
      UsersRepo.set_new_password db email new_password_hash

end AuthApi

/-- Leap year of the proleptic Gregorian calendar (Python `datetime`). -/
def isLeap (y : Nat) : Bool :=
  (y % 4 = 0 && y % 100 ≠ 0) || y % 400 = 0

/-- Length of a month, Gregorian calendar. -/
def daysInMonth (y m : Nat) : Nat :=
  if m = 2 then (if isLeap y then 29 else 28)
  else if m = 4 || m = 6 || m = 9 || m = 11 then 30
  else 31

/-- The calendar day after `d`. -/
def nextDay (d : PyDate) : PyDate :=
  if d.day < daysInMonth d.year d.month then { d with day := d.day + 1 }
  else if d.month < 12 then { year := d.year, month := d.month + 1, day := 1 }
  else { year := d.year + 1, month := 1, day := 1 }

/-- `d + timedelta(days=n)` for a non-negative `n`. -/
def addDays (d : PyDate) : Nat → PyDate
  | 0 => d
  | n + 1 => addDays (nextDay d) n

/-- The decimal digit character for `n < 10`. -/
def digitChar (n : Nat) : Char := Char.ofNat (48 + n)

/-- Two-digit zero-padded decimal rendering, as `%m` / `%d` / `MM` / `DD`
produce for month and day numbers. -/
def pad2 (n : Nat) : String := ⟨[digitChar (n / 10), digitChar (n % 10)]⟩

/-- `strftime('%m-%d')` / `to_char(date, 'MM-DD')`: normalized month-day
string of a date, year ignored. -/
def mmdd (d : PyDate) : String := pad2 d.month ++ "-" ++ pad2 d.day

/-- Lexicographic order on code points, the order SQL applies to the
`MM-DD` strings compared by the birthday query. -/
def charListLe : List Char → List Char → Bool
  | [], _ => true
  | _ :: _, [] => false
  | a :: as, b :: bs =>
    if a.toNat < b.toNat then true
    else if b.toNat < a.toNat then false
    else charListLe as bs

/-- String `<=` used for `between` / `>=` / `<=` on `MM-DD` strings. -/
def strLe (a b : String) : Bool := charListLe a.data b.data

/-- Whether `pat` starts the list `s`. -/
def takePre : List Char → List Char → Bool
  | [], _ => true
  | _ :: _, [] => false
  | a :: as, b :: bs => a = b && takePre as bs

/-- Whether `pat` occurs contiguously in `s`. -/
def hasSub (s pat : List Char) : Bool :=
  match s with
  | [] => pat.isEmpty
  | _ :: rest => takePre pat s || hasSub rest pat

/-- Boolean substring test, Python's `pat in s`, for the
`'...' in error_message` checks of `ContactRepository.create_contact`. -/
def strContainsSub (s pat : String) : Bool :=
  hasSub s.data pat.data

/-- PostgreSQL's constraint-violation message for the unique constraint
`uq_contact_email_user` declared in `src/database/models.py`. -/
def pgEmailErrMsg : String :=
  "duplicate key value violates unique constraint \"uq_contact_email_user\""

/-- PostgreSQL's constraint-violation message for the unique constraint
`uq_contact_phone_user` declared in `src/database/models.py`. -/
def pgPhoneErrMsg : String :=
  "duplicate key value violates unique constraint \"uq_contact_phone_user\""

/-- Outcome of an SQL `INSERT` into `contacts`. -/
inductive PgInsertResult where
  | ok (tbl : List Contact)
  | integrityError (message : String)
deriving DecidableEq, Repr

/-- The external relational store at the boundary specified in the spec
(unique constraints reported as constraint violations): inserting a row
that collides with `uq_contact_email_user` or `uq_contact_phone_user`
(both declared in `src/database/models.py`, scoped by `user_id`) raises an
`IntegrityError` whose stringified cause carries the standard PostgreSQL
message naming the violated constraint. -/
def pgInsertContact (tbl : List Contact) (c : Contact) : PgInsertResult :=
  if tbl.any (fun x => x.email = c.email && x.user_id = c.user_id) then
    .integrityError pgEmailErrMsg
  else if tbl.any (fun x => x.phone_number = c.phone_number && x.user_id = c.user_id) then
    .integrityError pgPhoneErrMsg
  else .ok (tbl ++ [c])

/-- The store's `UPDATE ... COMMIT` of row `updated`: the constraint check
at commit rejects the new values when any OTHER row of the same owner
already carries the email (constraint `uq_contact_email_user`) or the
phone number (`uq_contact_phone_user`); otherwise the row is replaced. -/
def pgUpdateContact (tbl : List Contact) (updated : Contact) : PgInsertResult :=
  if tbl.any (fun x =>
      x.id ≠ updated.id && x.email = updated.email && x.user_id = updated.user_id) then
    .integrityError pgEmailErrMsg
  else if tbl.any (fun x =>
      x.id ≠ updated.id && x.phone_number = updated.phone_number
        && x.user_id = updated.user_id) then
    .integrityError pgPhoneErrMsg
  else .ok (tbl.map (fun x => if x.id = updated.id then updated else x))

/-- The pydantic `ContactCreate` schema (`src/schemas.py`). -/
structure ContactCreate where
  first_name : String
  last_name : Option String
  email : String
  phone_number : String
  birthday : PyDate
  additional_data : Option String
deriving DecidableEq, Repr

/-- The pydantic `ContactUpdate` schema (`src/schemas.py`): every field
optional.  `model_dump(exclude_unset=True)` yields only the fields the
caller supplied, embedded here as the `some` fields. -/
structure ContactUpdate where
  first_name : Option String
  last_name : Option String
  email : Option String
  phone_number : Option String
  birthday : Option PyDate
  additional_data : Option String
deriving DecidableEq, Repr

/-- `Contact(**body.model_dump(), user_id=user.id)`: the row built from the
creation schema, the owner's id, and the serial id the insert assigns. -/
def contactFromBody (body : ContactCreate) (owner_id new_id : Nat) : Contact :=
  { id := new_id, first_name := body.first_name, last_name := body.last_name,
    email := body.email, phone_number := body.phone_number,
    birthday := body.birthday, additional_data := body.additional_data,
    user_id := owner_id }

namespace ContactsRepo

/-- Outcome of `ContactRepository.create_contact`: the created row plus the
table after commit, a `DuplicateContactError` with its message, or a
re-raised `IntegrityError`. -/
inductive CreateResult where
  | ok (contact : Contact) (tbl : List Contact)
  | duplicate (message : String)
  | integrityError (message : String)
deriving DecidableEq, Repr

/-- `ContactRepository.create_contact` (`src/repository/contacts.py`):
build the row from the schema and the owner's id, attempt the insert, and
on `IntegrityError` inspect `str(e.orig)` — if it reports a duplicate-key
violation naming `uq_contact_email_user` raise `DuplicateContactError`
("Contact with this email already exists."), if naming
`uq_contact_phone_user` raise it with the phone message, otherwise
re-raise. `new_id` stands for the serial primary key the insert assigns. -/
def create_contact (tbl : List Contact) (body : ContactCreate) (user : User)
    (new_id : Nat) : CreateResult :=
  let contact := contactFromBody body user.id new_id
  match pgInsertContact tbl contact with
  | .ok tbl2 => .ok contact tbl2
  | .integrityError msg =>
    if strContainsSub msg "duplicate key value violates unique constraint" then
      if strContainsSub msg "uq_contact_email_user" then
        .duplicate "Contact with this email already exists."
      else if strContainsSub msg "uq_contact_phone_user" then
        .duplicate "Contact with this phone number already exists."
      else .integrityError msg
    else .integrityError msg

/-- `ContactRepository.get_contact_by_id` (`src/repository/contacts.py`):
`select(Contact).filter_by(id=contact_id, user_id=user.id)`,
`scalar_one_or_none` — the lookup is owner-scoped. -/
def get_contact_by_id (tbl : List Contact) (contact_id : Nat) (user : User) :
    Option Contact :=
  tbl.find? (fun c => c.id = contact_id && c.user_id = user.id)

/-- The `for key, value in update_data.items(): setattr(contact, key, value)`
loop of `update_contact`: each field the caller supplied (a `some` of the
`exclude_unset` dump) overwrites the row's field; the rest keep their
values.  `id` and `user_id` are not in the schema and never change. -/
def applyUpdate (c : Contact) (b : ContactUpdate) : Contact :=
  { c with
    first_name := b.first_name.getD c.first_name,
    last_name := match b.last_name with | some v => some v | none => c.last_name,
    email := b.email.getD c.email,
    phone_number := b.phone_number.getD c.phone_number,
    birthday := b.birthday.getD c.birthday,
    additional_data :=
      match b.additional_data with | some v => some v | none => c.additional_data }

/-- Outcome of `ContactRepository.update_contact`: the refreshed row plus
the table after commit, Python `None` when the owner has no such contact,
a `DuplicateContactError` with its message, or a re-raised
`IntegrityError`. -/
inductive UpdateResult where
  | ok (contact : Contact) (tbl : List Contact)
  | notFound
  | duplicate (message : String)
  | integrityError (message : String)
deriving DecidableEq, Repr

/-- `ContactRepository.update_contact` (`src/repository/contacts.py`):
fetch the owner's contact by id (absent → return `None`); apply the
supplied fields; commit — on `IntegrityError` inspect `str(e.orig)` with
the same substring checks as `create_contact`, translating a duplicate-key
violation of `uq_contact_email_user` / `uq_contact_phone_user` to the
field-naming `DuplicateContactError` and re-raising anything else. -/
def update_contact (tbl : List Contact) (contact_id : Nat) (body : ContactUpdate)
    (user : User) : UpdateResult :=
  match get_contact_by_id tbl contact_id user with
  | none => .notFound
  | some contact =>
    let updated := applyUpdate contact body
    match pgUpdateContact tbl updated with
    | .ok tbl2 => .ok updated tbl2
    | .integrityError msg =>
      if strContainsSub msg "duplicate key value violates unique constraint" then
        if strContainsSub msg "uq_contact_email_user" then
          .duplicate "Contact with this email already exists."
        else if strContainsSub msg "uq_contact_phone_user" then
          .duplicate "Contact with this phone number already exists."
        else .integrityError msg
      else .integrityError msg

/-- `ContactRepository.get_upcoming_birthdays` (`src/repository/contacts.py`):
select the owner's contacts; with `end_date = today + timedelta(days=7)`,
if `today.year == end_date.year` keep rows whose `to_char(birthday,
'MM-DD')` is `between(today_str, end_date_str)` (inclusive), else keep rows
whose month-day is `>= today_str` OR `<= end_date_str`.  `today` is passed
in place of `date.today()`. -/
def get_upcoming_birthdays (tbl : List Contact) (user : User) (today : PyDate) :
    List Contact :=
  let end_date := addDays today 7
  let today_str := mmdd today
  let end_date_str := mmdd end_date
  let owned := tbl.filter (fun c => c.user_id = user.id)
  if today.year = end_date.year then
    owned.filter (fun c =>
      strLe today_str (mmdd c.birthday) && strLe (mmdd c.birthday) end_date_str)
  else
    owned.filter (fun c =>
      strLe today_str (mmdd c.birthday) || strLe (mmdd c.birthday) end_date_str)

end ContactsRepo

/-- Month-day window the birthday query actually implements: the inclusive
range from `today` to `today + 7` days (eight calendar days), evaluated as a
single between-range when both ends share a year, and as an OR of the two
month-day ranges when the window wraps the year boundary. -/
def birthdayWindow (today : PyDate) (md : String) : Bool :=
  let e := addDays today 7
  if today.year = e.year then strLe (mmdd today) md && strLe md (mmdd e)
  else strLe (mmdd today) md || strLe md (mmdd e)

/-- Modelled from the spec: the "inclusive 7-day window starting today"
with the spec's own boundary example (today = Dec 29 → Dec29–Dec31 OR
Jan1–Jan4), i.e. the month-day range from `today` to `today + 6` days.
Stated to compare against the window the code computes. -/
def specSevenDayWindow (today : PyDate) (md : String) : Bool :=
  let e := addDays today 6
  if today.year = e.year then strLe (mmdd today) md && strLe md (mmdd e)
  else strLe (mmdd today) md || strLe md (mmdd e)

/-! ### Concrete fixtures used by witnesses and counterexamples -/

/-- Test configuration: the default session lifetime of `src/conf/config.py`. -/
def cfg0 : Config := { JWT_SECRET := "secret", JWT_EXPIRATION_SECONDS := 3600 }

/-- The `deadpool` user of the repository's test fixtures, confirmed. -/
def deadpool : User :=
  { id := 1, username := "deadpool", email := "deadpool@example.com",
    hashed_password := "bcrypt-hash-1", confirmed := true, avatar := none,
    role := .ADMIN }

/-- An unconfirmed user. -/
def unconfirmedUser : User :=
  { id := 2, username := "newbie", email := "newbie@example.com",
    hashed_password := "bcrypt-hash-2", confirmed := false, avatar := none,
    role := .USER }

/-- A one-user directory. -/
def db0 : List User := [deadpool]

/-- A two-user directory. -/
def db1 : List User := [deadpool, unconfirmedUser]

/-- Concrete bcrypt oracle for the fixtures: accepts exactly the fixture
passwords against the fixture hashes. -/
def verify0 (plain hashed : String) : Bool :=
  (plain = "12345678" && hashed = "bcrypt-hash-1") ||
    (plain = "qwerty99" && hashed = "bcrypt-hash-2")

/-- A contact owned by `deadpool` with birthday Jan 2 (year ignored). -/
def contactJan2 : Contact :=
  { id := 10, first_name := "Ann", last_name := none, email := "ann@example.com",
    phone_number := "+380501112233", birthday := ⟨1990, 1, 2⟩,
    additional_data := none, user_id := 1 }

/-- A contact owned by `deadpool` with birthday Dec 20. -/
def contactDec20 : Contact :=
  { id := 11, first_name := "Bob", last_name := none, email := "bob@example.com",
    phone_number := "+380501112244", birthday := ⟨1985, 12, 20⟩,
    additional_data := none, user_id := 1 }

/-- A contact owned by `deadpool` with birthday Dec 30. -/
def contactDec30 : Contact :=
  { id := 12, first_name := "Cid", last_name := none, email := "cid@example.com",
    phone_number := "+380501112255", birthday := ⟨1970, 12, 30⟩,
    additional_data := none, user_id := 1 }

/-- A contact owned by `deadpool` with birthday Jan 5. -/
def contactJan5 : Contact :=
  { id := 13, first_name := "Dot", last_name := none, email := "dot@example.com",
    phone_number := "+380501112266", birthday := ⟨1992, 1, 5⟩,
    additional_data := none, user_id := 1 }

/-- Creation payload colliding with `contactJan2` on email only. -/
def bodyEmailClash : ContactCreate :=
  { first_name := "Eve", last_name := none, email := "ann@example.com",
    phone_number := "+380679998877", birthday := ⟨1991, 6, 15⟩,
    additional_data := none }

/-- Creation payload colliding with `contactJan2` on phone only. -/
def bodyPhoneClash : ContactCreate :=
  { first_name := "Fay", last_name := none, email := "fay@example.com",
    phone_number := "+380501112233", birthday := ⟨1993, 7, 16⟩,
    additional_data := none }

/-- Creation payload with email AND phone identical to `contactJan2`. -/
def bodySamePair : ContactCreate :=
  { first_name := "Gus", last_name := none, email := "ann@example.com",
    phone_number := "+380501112233", birthday := ⟨1994, 8, 17⟩,
    additional_data := none }

/-- Two contacts of owner `deadpool`, distinct emails and phones. -/
def tblOwner1 : List Contact := [contactJan2, contactDec20]

/-- Update payload setting only the email, to `contactJan2`'s email. -/
def updEmailClash : ContactUpdate :=
  { first_name := none, last_name := none, email := some "ann@example.com",
    phone_number := none, birthday := none, additional_data := none }

/-- Update payload setting only the phone, to `contactJan2`'s phone. -/
def updPhoneClash : ContactUpdate :=
  { first_name := none, last_name := none, email := none,
    phone_number := some "+380501112233", birthday := none, additional_data := none }


/-- A stale cache snapshot of `deadpool` with the old role. -/
def staleDeadpool : User := { deadpool with role := .USER }

/-- A cache holding the stale snapshot under the key "deadpool". -/
def cache1 : Cache := [⟨"deadpool", staleDeadpool, 3600⟩]

/-- A session token whose subject is the username "deadpool". -/
def token1 : Token :=
  Token.signed { sub := .str "deadpool", exp := some 3600, iat := none } "secret"

/-- C7: a session token issued for subject `u` decodes to a claim set with
`sub = u` while the current time has not passed the expiry `now + ttl`
(`ttl` defaulting to the configured session lifetime); after the expiry,
under a different key, or malformed, decode fails with the single
`InvalidToken` kind. -/
theorem session_token_roundtrip (cfg : Config) (now now2 : Nat) (u : String) :
    (now2 ≤ now + cfg.JWT_EXPIRATION_SECONDS →
      jwt_decode (create_access_token cfg now (.str u) none) cfg.JWT_SECRET now2 =
        .ok { sub := .str u, exp := some (now + cfg.JWT_EXPIRATION_SECONDS), iat := none })
    ∧ (now + cfg.JWT_EXPIRATION_SECONDS < now2 →
      jwt_decode (create_access_token cfg now (.str u) none) cfg.JWT_SECRET now2 =
        .error .invalid)
    ∧ (∀ key, key ≠ cfg.JWT_SECRET →
      jwt_decode (create_access_token cfg now (.str u) none) key now2 = .error .invalid)
    ∧ jwt_decode .malformed cfg.JWT_SECRET now2 = .error .invalid := by
  refine ⟨?_, ?_, ?_, rfl⟩
  · intro h
    simp [create_access_token, jwt_decode, Nat.not_lt.mpr h]
  · intro h
    simp [create_access_token, jwt_decode, h]
  · intro key hk
    simp [create_access_token, jwt_decode, Ne.symm hk]

/-- C7 witness: with the fixture configuration, the token issued at time 0
for "alice" decodes to `sub = "alice"` at time 10, fails at time 3601,
fails under the key "other", and the malformed token fails. -/
theorem session_token_roundtrip_witness :
    jwt_decode (create_access_token cfg0 0 (.str "alice") none) cfg0.JWT_SECRET 10 =
      .ok { sub := .str "alice", exp := some 3600, iat := none }
    ∧ jwt_decode (create_access_token cfg0 0 (.str "alice") none) cfg0.JWT_SECRET 3601 =
      .error .invalid
    ∧ jwt_decode (create_access_token cfg0 0 (.str "alice") none) "other" 10 =
      .error .invalid :=
  ⟨(session_token_roundtrip cfg0 0 10 "alice").1 (by decide),
   (session_token_roundtrip cfg0 0 3601 "alice").2.1 (by decide),
   (session_token_roundtrip cfg0 0 10 "alice").2.2.1 "other" (by decide)⟩

/-- C5: for a token whose signature verifies but whose claim set has no
`sub` key at all, `get_current_user` raises the Python `KeyError` from
`payload["sub"]` — which `except JWTError` does not catch — instead of the
`Unauthenticated` ("Could not validate credentials") failure the spec
requires.  The code diverges from the claim here. -/
theorem guard_absent_sub_keyerror :
    (get_current_user cfg0 0 db0 []
      (Token.signed { sub := .absent, exp := some 100, iat := none } "secret")).1 =
      .error .keyError
    ∧ GuardErr.keyError ≠ GuardErr.credentials :=
  ⟨rfl, by decide⟩

/-- C1: the token issued by `login_user` carries the user's EMAIL as its
`sub` claim, while `get_current_user` resolves `sub` with a USERNAME
lookup; hence freshly logging in as `deadpool` and presenting the returned
token to the guard fails `Unauthenticated` instead of resolving to
`deadpool` (whose username differs from their email). -/
theorem login_token_subject_mismatch :
    AuthApi.login_user cfg0 0 db0 verify0 "deadpool" "12345678" =
      .ok (Token.signed { sub := .str "deadpool@example.com", exp := some 3600, iat := none }
        "secret")
    ∧ (get_current_user cfg0 0 db0 []
        (Token.signed { sub := .str "deadpool@example.com", exp := some 3600, iat := none }
          "secret")).1 = .error .credentials
    ∧ deadpool.username ≠ deadpool.email :=
  ⟨by decide, rfl, by decide⟩

/-- C6: while the cache holds an unexpired entry for the token's subject,
`get_current_user` returns the cached snapshot and leaves the cache alone —
for EVERY directory contents, so an out-of-band role or flag change in the
directory is invisible; on a miss it fetches the directory record and
repopulates the cache with an entry expiring 3600 seconds later. -/
theorem guard_cache_aside (cfg : Config) (now : Nat) (db db2 : List User)
    (cache : Cache) (token : Token) (p : Payload) (username : String) (u : User)
    (hdec : jwt_decode token cfg.JWT_SECRET now = .ok p)
    (hsub : p.sub = .str username) :
    (cacheGet cache username now = some u →
      get_current_user cfg now db cache token = (.ok u, cache)
      ∧ get_current_user cfg now db2 cache token = (.ok u, cache))
    ∧ (cacheGet cache username now = none →
      ∀ v, UsersRepo.get_user_by_username db username = some v →
        get_current_user cfg now db cache token = (.ok v, cacheSet cache username v now)
        ∧ ∃ rest, cacheSet cache username v now = ⟨username, v, now + 3600⟩ :: rest) := by
  constructor
  · intro hhit
    constructor <;> simp [get_current_user, hdec, hsub, hhit]
  · intro hmiss v hv
    exact ⟨by simp [get_current_user, hdec, hsub, hmiss, hv], _, rfl⟩

/-- C6 witness: with a stale snapshot of `deadpool` (old role `USER`)
cached while the directory already records role `ADMIN`, the guard resolves
the stale snapshot; with an empty cache it resolves the directory record
and repopulates the cache. -/
theorem guard_cache_aside_witness :
    get_current_user cfg0 0 db0 cache1 token1 = (.ok staleDeadpool, cache1)
    ∧ get_current_user cfg0 0 db0 [] token1 = (.ok deadpool, cacheSet [] "deadpool" deadpool 0)
    ∧ staleDeadpool.role ≠ deadpool.role :=
  ⟨((guard_cache_aside cfg0 0 db0 db0 cache1 token1
      { sub := .str "deadpool", exp := some 3600, iat := none } "deadpool" staleDeadpool
      rfl rfl).1 rfl).1,
   ((guard_cache_aside cfg0 0 db0 db0 [] token1
      { sub := .str "deadpool", exp := some 3600, iat := none } "deadpool" staleDeadpool
      rfl rfl).2 rfl deadpool rfl).1,
   by decide⟩

/-- C4: `login_user` answers an unknown username and a failed password
verification with the same 401 detail "Incorrect login or password";
correct credentials on an unconfirmed account get the distinct 401 detail
"Email address not confirmed"; only a confirmed user with verified
credentials receives the session token. -/
theorem login_error_uniformity (cfg : Config) (now : Nat) (db : List User)
    (verify : String → String → Bool) (username password : String) :
    (UsersRepo.get_user_by_username db username = none →
      AuthApi.login_user cfg now db verify username password =
        .unauthorized "Incorrect login or password")
    ∧ (∀ u, UsersRepo.get_user_by_username db username = some u →
        verify password u.hashed_password = false →
        AuthApi.login_user cfg now db verify username password =
          .unauthorized "Incorrect login or password")
    ∧ (∀ u, UsersRepo.get_user_by_username db username = some u →
        verify password u.hashed_password = true →
        u.confirmed = false →
        AuthApi.login_user cfg now db verify username password =
          .unauthorized "Email address not confirmed")
    ∧ (∀ u, UsersRepo.get_user_by_username db username = some u →
        verify password u.hashed_password = true →
        u.confirmed = true →
        AuthApi.login_user cfg now db verify username password =
          .ok (create_access_token cfg now (.str u.email) none)) := by
  refine ⟨?_, ?_, ?_, ?_⟩ <;> intros <;> simp [AuthApi.login_user, *]

/-- C4 witness: against the two-user fixture directory, an unknown
username, a wrong password, an unconfirmed account with its correct
password, and the confirmed `deadpool` with the correct password produce
the four prescribed outcomes. -/
theorem login_error_uniformity_witness :
    AuthApi.login_user cfg0 0 db1 verify0 "ghost" "12345678" =
      .unauthorized "Incorrect login or password"
    ∧ AuthApi.login_user cfg0 0 db1 verify0 "deadpool" "wrongpass" =
      .unauthorized "Incorrect login or password"
    ∧ AuthApi.login_user cfg0 0 db1 verify0 "newbie" "qwerty99" =
      .unauthorized "Email address not confirmed"
    ∧ AuthApi.login_user cfg0 0 db1 verify0 "deadpool" "12345678" =
      .ok (create_access_token cfg0 0 (.str "deadpool@example.com") none) :=
  ⟨(login_error_uniformity cfg0 0 db1 verify0 "ghost" "12345678").1 rfl,
   (login_error_uniformity cfg0 0 db1 verify0 "deadpool" "wrongpass").2.1 deadpool rfl rfl,
   (login_error_uniformity cfg0 0 db1 verify0 "newbie" "qwerty99").2.2.1 unconfirmedUser
     rfl rfl rfl,
   (login_error_uniformity cfg0 0 db1 verify0 "deadpool" "12345678").2.2.2 deadpool
     rfl rfl rfl⟩

/-- C3: creating OR updating a contact so that its (email, owner) pair
collides with another existing contact raises `DuplicateContactError` with
the message naming the email field; colliding on (phone, owner) only, with
the message naming the phone number field; when every existing contact
belongs to another owner — identical email and phone included — the insert
succeeds.  The two final conjuncts record that each message indeed names
its field. -/
theorem contact_conflict_translation (tbl : List Contact) (body : ContactCreate)
    (u1 u2 : User) (new_id : Nat) (upd : ContactUpdate) (contact_id : Nat) :
    ((∃ x ∈ tbl, x.email = body.email ∧ x.user_id = u1.id) →
      ContactsRepo.create_contact tbl body u1 new_id =
        .duplicate "Contact with this email already exists.")
    ∧ ((¬ ∃ x ∈ tbl, x.email = body.email ∧ x.user_id = u1.id) →
      (∃ x ∈ tbl, x.phone_number = body.phone_number ∧ x.user_id = u1.id) →
      ContactsRepo.create_contact tbl body u1 new_id =
        .duplicate "Contact with this phone number already exists.")
    ∧ ((∀ x ∈ tbl, x.user_id ≠ u2.id) →
      ContactsRepo.create_contact tbl body u2 new_id =
        .ok (contactFromBody body u2.id new_id) (tbl ++ [contactFromBody body u2.id new_id]))
    ∧ (∀ c, ContactsRepo.get_contact_by_id tbl contact_id u1 = some c →
      (∃ x ∈ tbl, x.id ≠ contact_id ∧
        x.email = (ContactsRepo.applyUpdate c upd).email ∧ x.user_id = u1.id) →
      ContactsRepo.update_contact tbl contact_id upd u1 =
        .duplicate "Contact with this email already exists.")
    ∧ (∀ c, ContactsRepo.get_contact_by_id tbl contact_id u1 = some c →
      (¬ ∃ x ∈ tbl, x.id ≠ contact_id ∧
        x.email = (ContactsRepo.applyUpdate c upd).email ∧ x.user_id = u1.id) →
      (∃ x ∈ tbl, x.id ≠ contact_id ∧
        x.phone_number = (ContactsRepo.applyUpdate c upd).phone_number ∧
        x.user_id = u1.id) →
      ContactsRepo.update_contact tbl contact_id upd u1 =
        .duplicate "Contact with this phone number already exists.")
    ∧ strContainsSub "Contact with this email already exists." "email" = true
    ∧ strContainsSub "Contact with this phone number already exists." "phone number" = true := by
  have hmail : ∀ u : User,
      (tbl.any (fun x => x.email = body.email && x.user_id = u.id)) = true ↔
        ∃ x ∈ tbl, x.email = body.email ∧ x.user_id = u.id := by
    intro u; simp [List.any_eq_true, contactFromBody]
  have hphone : ∀ u : User,
      (tbl.any (fun x => x.phone_number = body.phone_number && x.user_id = u.id)) = true ↔
        ∃ x ∈ tbl, x.phone_number = body.phone_number ∧ x.user_id = u.id := by
    intro u; simp [List.any_eq_true, contactFromBody]
  have hfound : ∀ c, ContactsRepo.get_contact_by_id tbl contact_id u1 = some c →
      c.id = contact_id ∧ c.user_id = u1.id := by
    intro c hc
    have h1 := List.find?_some (by simpa [ContactsRepo.get_contact_by_id] using hc)
    simpa using h1
  refine ⟨?_, ?_, ?_, ?_, ?_, by decide, by decide⟩
  · intro h
    simp [ContactsRepo.create_contact, pgInsertContact, contactFromBody,
      (hmail u1).2 h, pgEmailErrMsg, strContainsSub, hasSub, takePre]
  · intro hne h
    have h1 : (tbl.any (fun x => x.email = body.email && x.user_id = u1.id)) = false := by
      rw [Bool.eq_false_iff]
      intro hc
      exact hne ((hmail u1).1 hc)
    simp [ContactsRepo.create_contact, pgInsertContact, contactFromBody, h1,
      (hphone u1).2 h, pgPhoneErrMsg, strContainsSub, hasSub, takePre]
  · intro h
    have h1 : (tbl.any (fun x => x.email = body.email && x.user_id = u2.id)) = false := by
      rw [Bool.eq_false_iff]
      intro hc
      rcases (hmail u2).1 hc with ⟨x, hx, _, hid⟩
      exact h x hx hid
    have h2 : (tbl.any (fun x => x.phone_number = body.phone_number && x.user_id = u2.id)) = false := by
      rw [Bool.eq_false_iff]
      intro hc
      rcases (hphone u2).1 hc with ⟨x, hx, _, hid⟩
      exact h x hx hid
    simp [ContactsRepo.create_contact, pgInsertContact, contactFromBody, h1, h2]
  · intro c hc hex
    obtain ⟨hid, huid⟩ := hfound c hc
    have happid : (ContactsRepo.applyUpdate c upd).id = contact_id := by
      simp [ContactsRepo.applyUpdate, hid]
    have happuid : (ContactsRepo.applyUpdate c upd).user_id = u1.id := by
      simp [ContactsRepo.applyUpdate, huid]
    have hcond : ∃ x ∈ tbl,
        (¬x.id = (ContactsRepo.applyUpdate c upd).id ∧
          x.email = (ContactsRepo.applyUpdate c upd).email) ∧
        x.user_id = (ContactsRepo.applyUpdate c upd).user_id := by
      rcases hex with ⟨x, hx, h1, h2, h3⟩
      exact ⟨x, hx, ⟨by rw [happid]; exact h1, h2⟩, by rw [happuid]; exact h3⟩
    simp [ContactsRepo.update_contact, hc, pgUpdateContact, hcond,
      pgEmailErrMsg, strContainsSub, hasSub, takePre]
  · intro c hc hne hex
    obtain ⟨hid, huid⟩ := hfound c hc
    have happid : (ContactsRepo.applyUpdate c upd).id = contact_id := by
      simp [ContactsRepo.applyUpdate, hid]
    have happuid : (ContactsRepo.applyUpdate c upd).user_id = u1.id := by
      simp [ContactsRepo.applyUpdate, huid]
    have hcondne : ¬ ∃ x ∈ tbl,
        (¬x.id = (ContactsRepo.applyUpdate c upd).id ∧
          x.email = (ContactsRepo.applyUpdate c upd).email) ∧
        x.user_id = (ContactsRepo.applyUpdate c upd).user_id := by
      intro hcontra
      apply hne
      rcases hcontra with ⟨x, hx, ⟨h1, h2⟩, h3⟩
      exact ⟨x, hx, by rw [← happid]; exact h1, h2, by rw [← happuid]; exact h3⟩
    have hcond : ∃ x ∈ tbl,
        (¬x.id = (ContactsRepo.applyUpdate c upd).id ∧
          x.phone_number = (ContactsRepo.applyUpdate c upd).phone_number) ∧
        x.user_id = (ContactsRepo.applyUpdate c upd).user_id := by
      rcases hex with ⟨x, hx, h1, h2, h3⟩
      exact ⟨x, hx, ⟨by rw [happid]; exact h1, h2⟩, by rw [happuid]; exact h3⟩
    simp [ContactsRepo.update_contact, hc, pgUpdateContact, hcondne, hcond,
      pgPhoneErrMsg, strContainsSub, hasSub, takePre]

/-- C3 witness: against tables owned by `deadpool`, a creation payload
reusing `contactJan2`'s email fails naming the email, one reusing its
phone fails naming the phone number, a payload with both identical
succeeds for the other owner `unconfirmedUser`, and updating
`contactDec20` onto `contactJan2`'s email (resp. phone) fails with the
same field-naming messages. -/
theorem contact_conflict_translation_witness :
    ContactsRepo.create_contact [contactJan2] bodyEmailClash deadpool 20 =
      .duplicate "Contact with this email already exists."
    ∧ ContactsRepo.create_contact [contactJan2] bodyPhoneClash deadpool 20 =
      .duplicate "Contact with this phone number already exists."
    ∧ ContactsRepo.create_contact [contactJan2] bodySamePair unconfirmedUser 21 =
      .ok (contactFromBody bodySamePair unconfirmedUser.id 21)
        ([contactJan2] ++ [contactFromBody bodySamePair unconfirmedUser.id 21])
    ∧ ContactsRepo.update_contact tblOwner1 11 updEmailClash deadpool =
      .duplicate "Contact with this email already exists."
    ∧ ContactsRepo.update_contact tblOwner1 11 updPhoneClash deadpool =
      .duplicate "Contact with this phone number already exists." :=
  ⟨(contact_conflict_translation [contactJan2] bodyEmailClash deadpool deadpool 20
      updEmailClash 11).1 (by decide),
   (contact_conflict_translation [contactJan2] bodyPhoneClash deadpool deadpool 20
      updEmailClash 11).2.1 (by decide) (by decide),
   (contact_conflict_translation [contactJan2] bodySamePair deadpool unconfirmedUser 21
      updEmailClash 11).2.2.1 (by decide),
   (contact_conflict_translation tblOwner1 bodyEmailClash deadpool deadpool 20
      updEmailClash 11).2.2.2.1 contactDec20 (by decide) (by decide),
   (contact_conflict_translation tblOwner1 bodyEmailClash deadpool deadpool 20
      updPhoneClash 11).2.2.2.2.1 contactDec20 (by decide) (by decide) (by decide)⟩

/-- C2 counterexample: the claim's "inclusive 7-day window starting today"
ends at today + 6 days (its own example: today = Dec 29 → Dec29–Dec31 OR
Jan1–Jan4), yet with today = Dec 29 the code returns the contact whose
month-day is Jan 5 — outside that 7-day window. -/
theorem birthday_seven_day_window_counterexample :
    contactJan5 ∈ ContactsRepo.get_upcoming_birthdays [contactJan5] deadpool ⟨2024, 12, 29⟩
    ∧ specSevenDayWindow ⟨2024, 12, 29⟩ (mmdd contactJan5.birthday) = false := by
  decide

/-- C2 amended: `get_upcoming_birthdays` returns a contact iff it is the
owner's and its birthday's normalized month-day (year ignored) lies in the
inclusive window from today through today + 7 days — eight calendar days,
so today = Dec 29 gives Dec29–Dec31 OR Jan1–Jan5 — evaluated as an OR of
two month-day ranges when the window crosses a year boundary and as a
single between-range otherwise; with today = Dec 30, month-day Jan 2 is
included, Dec 20 excluded, and Dec 30 itself included. -/
theorem birthday_window_characterization (tbl : List Contact) (u : User)
    (today : PyDate) (c : Contact) :
    (c ∈ ContactsRepo.get_upcoming_birthdays tbl u today ↔
      c ∈ tbl ∧ c.user_id = u.id ∧ birthdayWindow today (mmdd c.birthday) = true)
    ∧ contactJan2 ∈ ContactsRepo.get_upcoming_birthdays
        [contactJan2, contactDec20, contactDec30] deadpool ⟨2024, 12, 30⟩
    ∧ contactDec20 ∉ ContactsRepo.get_upcoming_birthdays
        [contactJan2, contactDec20, contactDec30] deadpool ⟨2024, 12, 30⟩
    ∧ contactDec30 ∈ ContactsRepo.get_upcoming_birthdays
        [contactJan2, contactDec20, contactDec30] deadpool ⟨2024, 12, 30⟩ := by
  refine ⟨?_, by decide, by decide, by decide⟩
  have hsplit : ContactsRepo.get_upcoming_birthdays tbl u today =
      (tbl.filter (fun x => x.user_id = u.id)).filter
        (fun x => birthdayWindow today (mmdd x.birthday)) := by
    unfold ContactsRepo.get_upcoming_birthdays birthdayWindow
    by_cases h : today.year = (addDays today 7).year <;> simp [h]
  rw [hsplit]
  simp [List.mem_filter, and_assoc]
  intro _
  exact and_comm

/-- C8: running the confirmation flow with a valid action token for a user
whose confirmed flag is already true answers the informational message
"Your email has already been confirmed." and returns the user table exactly
as it was — no field mutated, no error. -/
theorem confirm_email_idempotent (cfg : Config) (now : Nat) (db : List User)
    (token : Token) (email : String) (user : User) (p : Payload)
    (hdec : jwt_decode token cfg.JWT_SECRET now = .ok p)
    (hsub : p.sub = .str email)
    (huser : UsersRepo.get_user_by_email db email = some user)
    (hconf : user.confirmed = true) :
    AuthApi.confirmed_email cfg now db token =
      .ok ("Your email has already been confirmed.", db) := by
  simp [AuthApi.confirmed_email, get_email_from_token, hdec, hsub,
    UsersRepo.get_user_by_email_py, huser, hconf]

/-- C8 witness: re-confirming the already-confirmed `deadpool` with a fresh
action token leaves the directory untouched and reports the message. -/
theorem confirm_email_idempotent_witness :
    AuthApi.confirmed_email cfg0 0 db0
      (create_email_token cfg0 0 (.str "deadpool@example.com")) =
      .ok ("Your email has already been confirmed.", db0) :=
  confirm_email_idempotent cfg0 0 db0
    (create_email_token cfg0 0 (.str "deadpool@example.com"))
    "deadpool@example.com" deadpool
    { sub := .str "deadpool@example.com", exp := some 1200, iat := some 0 }
    rfl rfl rfl rfl

/-- C9: `request_email` reads `user.confirmed` before any existence check,
so a request for an email with no registered user faults with the uncaught
`AttributeError` instead of answering a message; consequently the
`if user:` guard can never observe an absent user — the only success
without scheduling the verification email is the already-confirmed
short-circuit. -/
theorem request_email_null_deref (db : List User) (email : String) :
    (UsersRepo.get_user_by_email db email = none →
      AuthApi.request_email db email = .error .attributeError)
    ∧ (∀ m, AuthApi.request_email db email = .ok (m, false) →
      m = "Your email has already been confirmed.") := by
  constructor
  · intro h
    simp [AuthApi.request_email, AuthApi.pyConfirmed, h]
  · intro m hm
    cases hcase : UsersRepo.get_user_by_email db email with
    | none =>
      simp [AuthApi.request_email, AuthApi.pyConfirmed, hcase] at hm
    | some u =>
      by_cases hc : u.confirmed <;>
        simp [AuthApi.request_email, AuthApi.pyConfirmed, hcase, hc] at hm
      exact hm.symm

/-- C9 witness: the empty directory faults on any email, and the
already-confirmed fixture is the sole send-nothing success. -/
theorem request_email_null_deref_witness :
    AuthApi.request_email [] "ghost@example.com" = .error .attributeError
    ∧ "Your email has already been confirmed." = "Your email has already been confirmed." :=
  ⟨(request_email_null_deref [] "ghost@example.com").1 rfl,
   (request_email_null_deref db0 "deadpool@example.com").2
     "Your email has already been confirmed." rfl⟩

/-- C10: a successful complete-password-reset (valid action token, existing
user) returns the full updated User record — every stored field, the newly
persisted password hash included — as the operation's value, alongside the
updated directory. -/
theorem password_reset_returns_user (cfg : Config) (now : Nat)
    (hashFn : String → String) (db : List User) (token : Token)
    (email new_password : String) (user : User) (p : Payload)
    (hdec : jwt_decode token cfg.JWT_SECRET now = .ok p)
    (hsub : p.sub = .str email)
    (huser : UsersRepo.get_user_by_email db email = some user) :
    AuthApi.password_reset cfg now hashFn db token new_password =
      .ok ({ user with hashed_password := hashFn new_password },
        db.map (fun x =>
          if x.email = user.email then { x with hashed_password := hashFn new_password }
          else x)) := by
  simp [AuthApi.password_reset, get_email_from_token, hdec, hsub,
    UsersRepo.get_user_by_email_py, UsersRepo.set_new_password, huser]

/-- C10 witness: resetting `deadpool`'s password through a fresh action
token yields the whole user record carrying the new hash. -/
theorem password_reset_returns_user_witness :
    AuthApi.password_reset cfg0 0 (fun s => String.append "hash:" s) db0
      (create_email_token cfg0 0 (.str "deadpool@example.com")) "newpass" =
      .ok ({ deadpool with hashed_password := "hash:newpass" },
        [{ deadpool with hashed_password := "hash:newpass" }]) :=
  password_reset_returns_user cfg0 0 (fun s => String.append "hash:" s) db0
    (create_email_token cfg0 0 (.str "deadpool@example.com"))
    "deadpool@example.com" "newpass" deadpool
    { sub := .str "deadpool@example.com", exp := some 1200, iat := some 0 }
    rfl rfl rfl
